import Mathlib

/-!
Verification of the `entities` operational scripts: shallow embedding of
`src/start.py` (`DockerManager`), `src/start_orchestration.py`
(`DockerOrchestrationManager`) and `src/scripts/bootstrap_admin.py`.

Python string primitives are re-implemented on `List Char` with structural
recursion so that every definition evaluates inside the kernel.
-/

/-! ## Python string primitives -/

/-- Python truthiness of an optional string (`None` and `""` are falsy). -/
def pyTruthy : Option String → Bool
  | none => false
  | some s => !s.data.isEmpty

/-- One step of Python `str.replace`: `fuel`-indexed so the recursion is
structural; `fuel = length of the remaining text` always suffices because every
step consumes at least one character.  Matches Python semantics for non-empty
patterns (the only ones the scripts use). -/
def pyReplaceAux (pat rep : List Char) : Nat → List Char → List Char
  | _, [] => []
  | 0, l => l
  | fuel + 1, c :: cs =>
    if pat.isPrefixOf (c :: cs) then
      rep ++ pyReplaceAux pat rep fuel ((c :: cs).drop pat.length)
    else
      c :: pyReplaceAux pat rep fuel cs

/-- Python `s.replace(pat, rep)` for non-empty `pat`: replaces every
non-overlapping occurrence, scanning left to right. -/
def pyReplace (s pat rep : String) : String :=
  String.mk (pyReplaceAux pat.data rep.data s.data.length s.data)

/-- Python `s.split(sep)` for the single-character separator `sep`. -/
def pySplitChars (sep : Char) : List Char → List (List Char)
  | [] => [[]]
  | c :: cs =>
    match pySplitChars sep cs with
    | h :: t => if c = sep then [] :: h :: t else (c :: h) :: t
    | [] => [[c]]

/-- Python `s.split(":")`. -/
def pySplitColon (s : String) : List String :=
  (pySplitChars (Char.ofNat 58) s.data).map String.mk

/-- Python whitespace test used by `str.strip()`. -/
def pyIsSpace (c : Char) : Bool :=
  c = ' ' || c = Char.ofNat 9 || c = Char.ofNat 10 || c = Char.ofNat 13
    || c = Char.ofNat 11 || c = Char.ofNat 12

/-- Python `s.strip()`. -/
def pyStrip (s : String) : String :=
  String.mk (((s.data.dropWhile pyIsSpace).reverse.dropWhile pyIsSpace).reverse)

/-- ASCII case folding, the fragment of Python `str.lower()` the scripts rely
on (confirmation words are ASCII). -/
def pyLowerChar (c : Char) : Char :=
  if c.toNat ≥ 65 ∧ c.toNat ≤ 90 then Char.ofNat (c.toNat + 32) else c

/-- Python `s.lower()` on ASCII input. -/
def pyLower (s : String) : String :=
  String.mk (s.data.map pyLowerChar)

/-- Python `s[:n]`. -/
def pyTake (n : Nat) (s : String) : String :=
  String.mk (s.data.take n)

/-- Python `s.startswith(c)` for a single-character argument. -/
def strStartsWithChar (s : String) (c : Char) : Bool :=
  match s.data with
  | [] => false
  | d :: _ => d == c

/-- Python `s.endswith(c)` for a single-character argument. -/
def strEndsWithChar (s : String) (c : Char) : Bool :=
  match s.data.reverse with
  | [] => false
  | d :: _ => d == c

/-- List concat-map, head-to-tail (Python list extension order). -/
def concatMap (f : α → List β) : List α → List β
  | [] => []
  | a :: as => f a ++ concatMap f as

/-! ## Environment mapping (Python `dict` as an ordered association list) -/

/-- First-match lookup in an ordered key/value list (Python `dict` access;
dict keys are unique, so first match is the match). -/
def envLookup (env : List (String × String)) (k : String) : Option String :=
  (env.find? (fun p => p.1 == k)).map Prod.snd

/-- Python `env[k] = v`: update the existing entry in place, else append. -/
def setVal : List (String × String) → String → String → List (String × String)
  | [], k, v => [(k, v)]
  | p :: rest, k, v => if p.1 == k then (k, v) :: rest else p :: setVal rest k v

/-! ## Host-port extraction from the compose `ports` list -/

/-- `src/start.py:122-130` (`_get_host_port_from_compose_service`): first
entry with at least two `:`-separated segments whose last segment equals the
requested container port yields its second-to-last segment. -/
def findHostPortStart : List String → String → Option String
  | [], _ => none
  | p :: rest, cp =>
    match (pySplitColon p).reverse with
    | last :: penult :: _ =>
      if last = cp then some penult else findHostPortStart rest cp
    | _ => findHostPortStart rest cp

/-- `src/start_orchestration.py:299-331`: same scan, but single-segment
entries are skipped explicitly and the returned host segment is `strip`ped. -/
def findHostPortOrch : List String → String → Option String
  | [], _ => none
  | p :: rest, cp =>
    match (pySplitColon p).reverse with
    | last :: penult :: _ =>
      if last = cp then some (pyStrip penult) else findHostPortOrch rest cp
    | _ => findHostPortOrch rest cp

/-- The spec's matching condition: the entry has at least two `:`-separated
segments and its last segment equals the requested container port (so a bare
`container` entry never matches). -/
def entryMatches (cp : String) (p : String) : Bool :=
  match (pySplitColon p).reverse with
  | last :: _ :: _ => last == cp
  | _ => false

/-- The spec's extraction: the second-to-last `:`-separated segment. -/
def penultSeg (p : String) : Option String :=
  match (pySplitColon p).reverse with
  | _ :: penult :: _ => some penult
  | _ => none

/-! ## Generated secrets of `DockerManager` (`src/start.py:36-42,139-144`) -/

/-- `DockerManager._GENERATED_SECRETS`, in source order. -/
def generatedSecretsStart : List String :=
  ["SECRET_KEY", "MYSQL_ROOT_PASSWORD", "MYSQL_PASSWORD",
   "BOOTSTRAP_ADMIN_API_KEY", "ADMIN_API_KEY"]

/-- `src/start.py:139-144`: the random stream `ts` abstracts successive
`secrets.token_urlsafe(32)` calls; draw 0 is the admin key suffix (computed
first), the loop then draws one fresh token per non-admin secret. -/
def applySecretsStart (env0 : List (String × String)) (ts : Nat → String) :
    List (String × String) :=
  let adminKey := "ad_" ++ ts 0
  (generatedSecretsStart.foldl
    (fun acc key =>
      if key == "BOOTSTRAP_ADMIN_API_KEY" || key == "ADMIN_API_KEY" then
        (setVal acc.1 key adminKey, acc.2)
      else
        (setVal acc.1 key (ts acc.2), acc.2 + 1))
    (env0, 1)).1

/-! ## `.env` existence check (both managers)

`DockerManager._check_or_generate_env_file` and
`DockerOrchestrationManager._check_for_required_env_file`: the file system is
`Option String` (`none` = absent, `some c` = file with byte content `c`);
the result pairs the file content afterwards with whether the generator ran. -/

/-- `src/start.py:172-175`. -/
def checkOrGenerateEnvFileStart : Option String → String → Option String × Bool
  | some c, _ => (some c, false)
  | none, g => (some g, true)

/-- `src/start_orchestration.py:494-508`. -/
def checkForRequiredEnvFileOrch : Option String → String → Option String × Bool
  | some c, _ => (some c, false)
  | none, g => (some g, true)

/-! ## Database URL synthesis -/

/-- `src/start.py:146-151`: the internal `DATABASE_URL`. -/
def dbUrlStart (user escapedPass host port dbname : String) : String :=
  "mysql+pymysql://" ++ user ++ ":" ++ escapedPass ++ "@"
    ++ host ++ ":" ++ port ++ "/" ++ dbname

/-- `src/start.py:156-159`: `SPECIAL_DB_URL` built by two global
`str.replace` calls on the whole internal URL. -/
def specialDbUrlStart (db_url mysqlHost mysqlPort hostPort : String) : String :=
  pyReplace (pyReplace db_url mysqlHost "localhost") mysqlPort hostPort

/-- `src/start_orchestration.py:401-404`: `SPECIAL_DB_URL` rebuilt from the
components with `localhost:<host_port>` spliced in. -/
def specialDbUrlOrch (user escapedPass hostPort dbname : String) : String :=
  "mysql+pymysql://" ++ user ++ ":" ++ escapedPass ++ "@localhost:"
    ++ hostPort ++ "/" ++ dbname

/-! ## Shared-path configuration -/

/-- The host operating system as reported by `platform.system().lower()`. -/
inductive HostOS where
  | windows
  | linux
  | darwin
  | other : String → HostOS
  deriving DecidableEq, Repr

/-- Outcome of a `_configure_shared_path` call: `exitCode` is `some n` when
the function called `sys.exit(n)`, `envAfter` the `SHARED_PATH` process
environment entry afterwards, `created` the directory handed to `mkdir`
(`none` when the call exited before creating anything). -/
structure SharedPathResult where
  exitCode : Option Nat
  envAfter : Option String
  created : Option String
  deriving DecidableEq, Repr

/-- `src/start.py:177-188`: the platform default directory (path joins are
abstracted as `/`-separated concatenation); `none` on an unrecognized OS. -/
def sharedPathStartDefault (os : HostOS) (home : String) : Option String :=
  match os with
  | .windows => some (home ++ "/Documents/entities_share")
  | .linux => some (home ++ "/.local/share/entities_api_share")
  | .darwin => some (home ++ "/Library/Application Support/entities_api_share")
  | .other _ => none

/-- `src/start.py:177-191` (`DockerManager._configure_shared_path`): never
consults a pre-existing `SHARED_PATH`; unconditionally overwrites it, and
exits with code 1 on an unrecognized OS. -/
def configureSharedPathStart (os : HostOS) (home : String)
    (envBefore : Option String) : SharedPathResult :=
  match sharedPathStartDefault os home with
  | none => { exitCode := some 1, envAfter := envBefore, created := none }
  | some s => { exitCode := none, envAfter := some s, created := some s }

/-- `src/start_orchestration.py:521-539`: the platform default, with the
relative-path fallback for an unrecognized OS. -/
def sharedPathOrchDefault (os : HostOS) (home : String) : String :=
  match os with
  | .windows => home ++ "/entities_share"
  | .linux => home ++ "/.local/share/entities_share"
  | .darwin => home ++ "/Library/Application Support/entities_share"
  | .other _ => "./entities_share"

/-- `src/start_orchestration.py:511-548`
(`DockerOrchestrationManager._configure_shared_path`): a truthy pre-existing
`SHARED_PATH` is used unchanged; otherwise the default is computed and
exported; the function never exits. -/
def configureSharedPathOrch (os : HostOS) (home : String)
    (envBefore : Option String) : SharedPathResult :=
  if pyTruthy envBefore then
    { exitCode := none, envAfter := envBefore, created := envBefore }
  else
    { exitCode := none
      envAfter := some (sharedPathOrchDefault os home)
      created := some (sharedPathOrchDefault os home) }

/-! ## Destructive docker-compose actions (`src/start_orchestration.py`) -/

/-- Result of reading the confirmation prompt: `eof` models `input()` raising
`EOFError` (non-interactive stdin), `line s` a typed line. -/
inductive StdinResult where
  | eof : StdinResult
  | line : String → StdinResult
  deriving DecidableEq, Repr

/-- Observable outcome of a handler: the Docker commands it executed, in
order, and `some n` when it called `sys.exit(n)` (cutting execution there). -/
structure ExecResult where
  commands : List (List String)
  exitCode : Option Nat
  deriving DecidableEq, Repr

/-- `src/start_orchestration.py:657-673` (`_handle_nuke`): EOF at the prompt
exits 1 with no command; any answer other than the literal `confirm nuke`
exits 0 with no command; otherwise the stack is brought down and the system
pruned. -/
def handleNuke (stdin : StdinResult) : ExecResult :=
  match stdin with
  | .eof => { commands := [], exitCode := some 1 }
  | .line confirm =>
    if confirm = "confirm nuke" then
      { commands :=
          [["docker", "compose", "down", "--volumes", "--remove-orphans"],
           ["docker", "system", "prune", "-a", "--volumes", "--force"]]
        exitCode := none }
    else
      { commands := [], exitCode := some 0 }

/-- `src/start_orchestration.py:692-695`: the `docker compose down` command
line assembled by `_handle_down`. -/
def downCmd (clearVolumes : Bool) (services : List String) : List String :=
  ["docker", "compose", "down"]
    ++ (if clearVolumes then ["--volumes"] else [])
    ++ ["--remove-orphans"] ++ services

/-- `src/start_orchestration.py:675-700` (`_handle_down`): with
`--clear-volumes`, EOF at the prompt exits 1 before any command; an answer
whose lowered, stripped form is not `yes` drops only the `--volumes` flag and
still runs `docker compose down`. -/
def handleDown (clearVolumes : Bool) (services : List String)
    (stdin : StdinResult) : ExecResult :=
  if clearVolumes then
    match stdin with
    | .eof => { commands := [], exitCode := some 1 }
    | .line s =>
      let cv : Bool := pyStrip (pyLower s) == "yes"
      { commands := [downCmd cv services], exitCode := none }
  else
    { commands := [downCmd false services], exitCode := none }

/-! ## `.env` line formatting -/

/-- The double-quote character. -/
def quoteChar : Char := Char.ofNat 34

/-- The single-quote character. -/
def aposChar : Char := Char.ofNat 39

/-- `src/start_orchestration.py:439-442`: the quoting condition, exactly as
the source spells it. -/
def needsQuoting (v : String) : Bool :=
  (v.data.contains ' ' || v.data.contains '#' || v.data.contains '=')
    || (strStartsWithChar v quoteChar && strEndsWithChar v quoteChar)
    || (strStartsWithChar v aposChar && strEndsWithChar v aposChar)
    || v.data.isEmpty

/-- The same condition written from the spec's words: contains a space, `#`
or `=`, is empty, or is already quote-wrapped. -/
def needsQuotingSpec (v : String) : Bool :=
  v.data.contains ' ' || v.data.contains '#' || v.data.contains '='
    || v.data.isEmpty
    || (strStartsWithChar v quoteChar && strEndsWithChar v quoteChar)
    || (strStartsWithChar v aposChar && strEndsWithChar v aposChar)

/-- `src/start_orchestration.py:446`: escape backslashes then double quotes. -/
def escapeOrch (v : String) : String :=
  pyReplace (pyReplace v "\\" "\\\\") "\"" "\\\""

/-- `src/start_orchestration.py:444-449`: one emitted `.env` line. -/
def formatLineOrch (k v : String) : String :=
  if needsQuoting v then k ++ "=\"" ++ escapeOrch v ++ "\""
  else k ++ "=" ++ v

/-- `src/start.py:166-167`: `DockerManager` always wraps the value in double
quotes and escapes only embedded double quotes. -/
def formatLineStart (k v : String) : String :=
  k ++ "=\"" ++ pyReplace v "\"" "\\\"" ++ "\""

/-! ## `.env` file rendering -/

/-- Lexicographic comparison by code point (Python string `<`). -/
def listCharLtB : List Char → List Char → Bool
  | [], [] => false
  | [], _ :: _ => true
  | _ :: _, [] => false
  | a :: as, b :: bs =>
    if a.toNat < b.toNat then true
    else if b.toNat < a.toNat then false
    else listCharLtB as bs

/-- Python string `<`. -/
def strLtB (a b : String) : Bool :=
  listCharLtB a.data b.data

/-- Insertion into a sorted list of strings. -/
def insertSorted (x : String) : List String → List String
  | [] => [x]
  | y :: ys => if strLtB x y then x :: y :: ys else y :: insertSorted x ys

/-- Python `sorted` on unique strings (insertion sort; on duplicate-free
input any correct sort produces the same list). -/
def sortStrings : List String → List String
  | [] => []
  | x :: xs => insertSorted x (sortStrings xs)

/-- `src/start.py:64-98` (`DockerManager._ENV_STRUCTURE`), in source order. -/
def startEnvStructure : List (String × List String) :=
  [("Secrets",
    ["SECRET_KEY", "MYSQL_ROOT_PASSWORD", "MYSQL_PASSWORD",
     "BOOTSTRAP_ADMIN_API_KEY", "ADMIN_API_KEY"]),
   ("Database",
    ["DATABASE_URL", "SPECIAL_DB_URL", "MYSQL_HOST", "MYSQL_PORT",
     "MYSQL_DATABASE", "MYSQL_USER"]),
   ("Services",
    ["QDRANT_URL", "SANDBOX_SERVER_URL", "ASSISTANTS_BASE_URL"]),
   ("Samba",
    ["SHARED_PATH", "SMBCLIENT_SERVER", "SMBCLIENT_SHARE",
     "SMBCLIENT_USERNAME", "SMBCLIENT_PASSWORD", "SMBCLIENT_PORT"]),
   ("Application",
    ["LOG_LEVEL", "PYTHONUNBUFFERED", "DISABLE_FIREJAIL"])]

/-- `src/start.py:161-169`: `DockerManager` emits a header then, per section
of `_ENV_STRUCTURE`, a comment line and one always-quoted line per key
present in the mapping.  Keys outside the structure are never emitted. -/
def formatEnvStart (env : List (String × String))
    (spec : List (String × List String)) : List String :=
  ["# Auto-generated .env"]
    ++ concatMap
      (fun sec =>
        ("\n# " ++ sec.1)
          :: sec.2.filterMap
            (fun k => (envLookup env k).map (fun v => formatLineStart k v)))
      spec

/-- `src/start_orchestration.py:435-451`: the lines a section's key loop
emits — one formatted line per key present in the mapping. -/
def sectionBody (env : List (String × String)) (keys : List String) :
    List String :=
  keys.filterMap (fun k => (envLookup env k).map (fun v => formatLineOrch k v))

/-- `src/start_orchestration.py:430-455` continued: one rendered section —
three header lines, the present keys' lines (or a placeholder comment when
none), and a blank separator. -/
def renderSectionOrch (env : List (String × String)) (name : String)
    (keys : List String) : List String :=
  ["#############################", "# " ++ name, "#############################"]
    ++ (if (sectionBody env keys).isEmpty then
          ["# (No variables configured for this section)"]
        else sectionBody env keys)
    ++ [""]

/-- The keys marked processed while rendering the sections
(`processed_keys` in the source): listed in some section and present in the
mapping. -/
def processedKeysOrch (env : List (String × String))
    (spec : List (String × List String)) : List String :=
  concatMap (fun sec => sec.2.filter (fun k => (envLookup env k).isSome)) spec

/-- `src/start_orchestration.py:458`: the leftover keys, sorted
(`sorted(set(env_values.keys()) - processed_keys)`; dict keys are unique). -/
def remainingKeysOrch (env : List (String × String))
    (spec : List (String × List String)) : List String :=
  sortStrings
    ((env.map Prod.fst).filter
      (fun k => !((processedKeysOrch env spec).any (fun x => x == k))))

/-- `src/start_orchestration.py:426-474`: the full rendered `.env` line
list — intro header, the sections in specified order, then the leftover keys
under an `Other (Uncategorized)` section. -/
def formatEnvOrch (env : List (String × String))
    (spec : List (String × List String)) : List String :=
  ["# Auto-generated .env file by start_orchestration.py", ""]
    ++ concatMap (fun sec => renderSectionOrch env sec.1 sec.2) spec
    ++ (if (remainingKeysOrch env spec).isEmpty then []
        else
          ["#############################", "# Other (Uncategorized)",
           "#############################"]
            ++ sectionBody env (remainingKeysOrch env spec)
            ++ [""])

/-! ## Admin bootstrap (`src/scripts/bootstrap_admin.py`) -/

/-- The `User` row fields the bootstrap touches. -/
structure User where
  id : String
  email : String
  fullName : String
  isAdmin : Bool
  deriving DecidableEq, Repr

/-- The `ApiKey` row fields the bootstrap touches (`keyPfx` is the stored
`prefix` column). -/
structure ApiKey where
  userId : String
  keyName : String
  hashedKey : String
  keyPfx : String
  isActive : Bool
  deriving DecidableEq, Repr

/-- The database state the bootstrap reads and writes. -/
structure DB where
  users : List User
  keys : List ApiKey
  deriving DecidableEq, Repr

/-- `src/scripts/bootstrap_admin.py:98-145` (`find_or_create_admin_user`):
look up the first user with the email; if found and not admin, flip the flag
in place (row identity is the unique email — the external schema's
invariant); if absent, insert a fresh admin row with identifier `freshId`. -/
def findOrCreateAdminUser (db : DB) (email name freshId : String) :
    DB × User :=
  match db.users.find? (fun u => u.email == email) with
  | some u =>
    if u.isAdmin then (db, u)
    else
      ({ db with
          users := db.users.map
            (fun x => if x.email == email then { x with isAdmin := true } else x) },
       { u with isAdmin := true })
  | none =>
    let u : User :=
      { id := freshId, email := email, fullName := name, isAdmin := true }
    ({ db with users := db.users ++ [u] }, u)

/-- `src/scripts/bootstrap_admin.py:148-202` (`generate_and_save_key`): if
the user already has a key, no insert and `(None, existing prefix)`;
otherwise insert the hashed record of the fresh plaintext `freshKey` and
return `(plaintext, prefix)` where the prefix is the first 8 characters. -/
def generateAndSaveKey (db : DB) (adminUser : User)
    (keyName freshKey : String) (hash : String → String) :
    DB × (Option String × Option String) :=
  match db.keys.find? (fun k => k.userId == adminUser.id) with
  | some k => (db, (none, some k.keyPfx))
  | none =>
    let kp := pyTake 8 freshKey
    let record : ApiKey :=
      { userId := adminUser.id, keyName := keyName,
        hashedKey := hash freshKey, keyPfx := kp, isActive := true }
    ({ db with keys := db.keys ++ [record] }, (some freshKey, some kp))

/-- `src/scripts/bootstrap_admin.py:406-445` (`run_bootstrap`), restricted
to its database steps: find-or-create the admin user, then
generate-and-save the key for it. -/
def runBootstrap (db : DB) (email name freshId keyName freshKey : String)
    (hash : String → String) : DB × (Option String × Option String) :=
  let r := findOrCreateAdminUser db email name freshId
  generateAndSaveKey r.1 r.2 keyName freshKey hash

/-! ## Bootstrap DB-URL resolution (`src/scripts/bootstrap_admin.py`) -/

/-- Python `a or b` on optional strings (empty string is falsy). -/
def pyOrOpt (a b : Option String) : Option String :=
  if pyTruthy a then a else b

/-- `src/scripts/bootstrap_admin.py:317-333` and `373-381`
(`parse_arguments`): the resolved database URL, or an argument-parser error
(`parser.error` / argparse `required` failure, both a non-zero exit). -/
def resolveDbUrl (flag envInternal envExternal : Option String) :
    Except Unit String :=
  let dbUrl := match flag with
    | some s => some s
    | none => pyOrOpt envInternal envExternal
  match dbUrl with
  | none => Except.error ()
  | some s => if s.data.isEmpty then Except.error () else Except.ok s

/-- `__main__` of `bootstrap_admin.py`: `parse_arguments` runs before
`run_bootstrap`, so an argument-parser error produces no database side
effect; `effects url` abstracts the database actions of a successful run. -/
def scriptDbEffects (flag envI envE : Option String)
    (effects : String → List String) : List String :=
  match resolveDbUrl flag envI envE with
  | Except.error _ => []
  | Except.ok url => effects url

/-! ## Theorems -/

/-- C2: if `.env` already exists neither manager invokes the generator and the
byte content is untouched; generation runs exactly when the file is absent, so
a second invocation after a first one leaves the bytes identical. -/
theorem C2_env_generation_idempotent :
    (∀ c g, checkOrGenerateEnvFileStart (some c) g = (some c, false))
    ∧ (∀ g, checkOrGenerateEnvFileStart none g = (some g, true))
    ∧ (∀ fs g1 g2,
        checkOrGenerateEnvFileStart (checkOrGenerateEnvFileStart fs g1).1 g2
          = ((checkOrGenerateEnvFileStart fs g1).1, false))
    ∧ (∀ c g, checkForRequiredEnvFileOrch (some c) g = (some c, false))
    ∧ (∀ g, checkForRequiredEnvFileOrch none g = (some g, true))
    ∧ (∀ fs g1 g2,
        checkForRequiredEnvFileOrch (checkForRequiredEnvFileOrch fs g1).1 g2
          = ((checkForRequiredEnvFileOrch fs g1).1, false)) := by
  refine ⟨fun c g => rfl, fun g => rfl, fun fs g1 g2 => ?_,
    fun c g => rfl, fun g => rfl, fun fs g1 g2 => ?_⟩
  · cases fs <;> rfl
  · cases fs <;> rfl

/-- C1: at the defaults (`MYSQL_HOST="db"`, `MYSQL_PORT="3306"`,
`MYSQL_DATABASE="entities_db"`, compose ports `["3307:3306"]`, url-encoded
password `"pw"`), `DockerManager`'s global-replace construction mangles the
database name to `entities_localhost` instead of producing
`.../entities_db`, while `DockerOrchestrationManager` produces the URL the
spec describes. -/
theorem C1_special_db_url_replace_bug :
    specialDbUrlStart (dbUrlStart "api_user" "pw" "db" "3306" "entities_db")
        "db" "3306" "3307"
      = "mysql+pymysql://api_user:pw@localhost:3307/entities_localhost"
    ∧ specialDbUrlStart (dbUrlStart "api_user" "pw" "db" "3306" "entities_db")
        "db" "3306" "3307"
      ≠ "mysql+pymysql://api_user:pw@localhost:3307/entities_db"
    ∧ specialDbUrlOrch "api_user" "pw" "3307" "entities_db"
      = "mysql+pymysql://api_user:pw@localhost:3307/entities_db" := by
  refine ⟨by decide, by decide, by decide⟩

/-- The source quoting condition coincides with the spec's phrasing of it. -/
theorem needsQuoting_eq_spec (v : String) : needsQuoting v = needsQuotingSpec v := by
  unfold needsQuoting needsQuotingSpec
  cases v.data.contains ' ' <;> cases v.data.contains '#' <;>
    cases v.data.contains '=' <;> cases v.data.isEmpty <;>
    cases (strStartsWithChar v quoteChar && strEndsWithChar v quoteChar) <;>
    cases (strStartsWithChar v aposChar && strEndsWithChar v aposChar) <;> rfl

/-- C4 counterexample: `"INFO"` needs no quoting under the claimed rule, yet
`DockerManager` emits it quoted, so the claim fails for `src/start.py`. -/
theorem C4_start_always_quotes_counterexample :
    needsQuotingSpec "INFO" = false
    ∧ formatLineStart "LOG_LEVEL" "INFO" = "LOG_LEVEL=\"INFO\""
    ∧ "LOG_LEVEL=\"INFO\"" ≠ "LOG_LEVEL=INFO" := by
  refine ⟨by decide, by decide, by decide⟩

/-- C4 amended: the quote-iff rule holds for `DockerOrchestrationManager`
(quote and escape backslashes/double quotes exactly when the value contains a
space, `#` or `=`, is empty, or is already quote-wrapped); `DockerManager`
instead wraps every value in double quotes, escaping only embedded double
quotes. -/
theorem C4_quoting_rule (k v : String) :
    formatLineOrch k v
      = (if needsQuotingSpec v then k ++ "=\"" ++ escapeOrch v ++ "\""
         else k ++ "=" ++ v)
    ∧ formatLineStart k v = k ++ "=\"" ++ pyReplace v "\"" "\\\"" ++ "\"" := by
  refine ⟨?_, rfl⟩
  rw [formatLineOrch, needsQuoting_eq_spec]

/-- C3 counterexample: with `--clear-volumes` and the confirmation refused
(answer `no`), `_handle_down` still runs `docker compose down
--remove-orphans`; the claim that no docker compose command runs is false. -/
theorem C3_refused_clear_volumes_counterexample :
    (handleDown true [] (StdinResult.line "no")).commands
      = [["docker", "compose", "down", "--remove-orphans"]]
    ∧ (handleDown true [] (StdinResult.line "no")).commands ≠ [] := by
  refine ⟨by decide, by decide⟩

/-- C3 amended: `--nuke` behaves as claimed (EOF exits 1 with no docker
command, a wrong confirmation string runs no docker command); for
`--clear-volumes`, EOF exits 1 with no command, but a refused confirmation
only drops the `--volumes` flag and still runs `docker compose down
--remove-orphans` on the targeted services. -/
theorem C3_destructive_confirmations :
    handleNuke StdinResult.eof = { commands := [], exitCode := some 1 }
    ∧ (∀ s, s ≠ "confirm nuke" →
        handleNuke (StdinResult.line s) = { commands := [], exitCode := some 0 })
    ∧ (∀ svcs, handleDown true svcs StdinResult.eof
        = { commands := [], exitCode := some 1 })
    ∧ (∀ svcs s, pyStrip (pyLower s) ≠ "yes" →
        handleDown true svcs (StdinResult.line s)
          = { commands := [["docker", "compose", "down", "--remove-orphans"] ++ svcs]
              exitCode := none }) := by
  refine ⟨rfl, fun s hs => ?_, fun svcs => rfl, fun svcs s hs => ?_⟩
  · simp only [handleNuke, if_neg hs]
  · have hb : (pyStrip (pyLower s) == "yes") = false := by
      rwa [beq_eq_false_iff_ne]
    simp [handleDown, downCmd, hb]

/-- C3 witness: the amended theorem applied at the concrete refused inputs. -/
theorem C3_destructive_confirmations_witness :
    handleNuke (StdinResult.line "yes")
      = { commands := [], exitCode := some 0 }
    ∧ handleDown true ["db"] (StdinResult.line "NO ")
      = { commands := [["docker", "compose", "down", "--remove-orphans", "db"]]
          exitCode := none } :=
  ⟨C3_destructive_confirmations.2.1 "yes" (by decide),
   C3_destructive_confirmations.2.2.2 ["db"] "NO " (by decide)⟩

/-- C5 counterexample: `DockerOrchestrationManager` does not exit on an
unrecognized OS (it falls back to `./entities_share`), and `DockerManager`
overwrites a pre-set `SHARED_PATH` instead of using it unchanged — both
halves of the claim fail on the code. -/
theorem C5_shared_path_counterexample :
    (configureSharedPathOrch (HostOS.other "solaris") "/home/u" none).exitCode
      = none
    ∧ (configureSharedPathOrch (HostOS.other "solaris") "/home/u" none).envAfter
      = some "./entities_share"
    ∧ (configureSharedPathStart HostOS.linux "/home/u" (some "/custom")).envAfter
      = some "/home/u/.local/share/entities_api_share"
    ∧ (configureSharedPathStart HostOS.linux "/home/u" (some "/custom")).envAfter
      ≠ some "/custom" := by
  refine ⟨by decide, by decide, by decide, by decide⟩

/-- C5 amended: `DockerOrchestrationManager` uses a truthy pre-set
`SHARED_PATH` unchanged and never exits — an unrecognized OS falls back to
the relative `./entities_share`; `DockerManager` ignores any pre-set value,
always installs its platform default, and exits with code 1 exactly when the
OS is unrecognized. -/
theorem C5_shared_path_contract (os : HostOS) (home : String)
    (env : Option String) :
    (configureSharedPathOrch os home env).exitCode = none
    ∧ (pyTruthy env = true →
        configureSharedPathOrch os home env
          = { exitCode := none, envAfter := env, created := env })
    ∧ (pyTruthy env = false →
        configureSharedPathOrch os home env
          = { exitCode := none
              envAfter := some (sharedPathOrchDefault os home)
              created := some (sharedPathOrchDefault os home) })
    ∧ (∀ s, sharedPathStartDefault os home = some s →
        configureSharedPathStart os home env
          = { exitCode := none, envAfter := some s, created := some s })
    ∧ ((configureSharedPathStart os home env).exitCode = some 1
        ↔ ∃ n, os = HostOS.other n) := by
  refine ⟨?_, fun h => ?_, fun h => ?_, fun s hs => ?_, ?_⟩
  · unfold configureSharedPathOrch
    cases pyTruthy env <;> simp
  · simp only [configureSharedPathOrch, h, if_pos]
  · simp only [configureSharedPathOrch, h, Bool.false_eq_true, if_neg,
      not_false_eq_true]
  · simp [configureSharedPathStart, hs]
  · cases os <;> simp [configureSharedPathStart, sharedPathStartDefault]

/-- C5 witness: the amended theorem applied at Linux with a pre-set path. -/
theorem C5_shared_path_contract_witness :
    configureSharedPathOrch HostOS.linux "/home/u" (some "/custom")
      = { exitCode := none, envAfter := some "/custom", created := some "/custom" } :=
  (C5_shared_path_contract HostOS.linux "/home/u" (some "/custom")).2.1 rfl

/-- A falsy present string is empty. -/
theorem pyTruthy_false_isEmpty {s : String} (h : pyTruthy (some s) = false) :
    s.data.isEmpty = true := by
  simpa [pyTruthy] using h

/-- C9: the bootstrap script resolves its database URL as `--db-url` flag
first, then `DATABASE_URL`, then `SPECIAL_DB_URL`; with none of the three
available it raises an argument-parser error and performs no database side
effect. -/
theorem C9_db_url_priority (flag envI envE : Option String)
    (effects : String → List String) :
    (∀ s, flag = some s → s.data.isEmpty = false →
        resolveDbUrl flag envI envE = Except.ok s)
    ∧ (∀ s, flag = none → envI = some s → s.data.isEmpty = false →
        resolveDbUrl flag envI envE = Except.ok s)
    ∧ (∀ s, flag = none → pyTruthy envI = false → envE = some s →
        s.data.isEmpty = false → resolveDbUrl flag envI envE = Except.ok s)
    ∧ (pyTruthy flag = false → pyTruthy envI = false → pyTruthy envE = false →
        resolveDbUrl flag envI envE = Except.error ()
          ∧ scriptDbEffects flag envI envE effects = []) := by
  refine ⟨fun s hf hs => ?_, fun s hf hi hs => ?_, fun s hf hi he hs => ?_,
    fun hf hi he => ?_⟩
  · subst hf
    simp [resolveDbUrl, hs]
  · subst hf; subst hi
    have ht : pyTruthy (some s) = true := by
      simp [pyTruthy, hs]
    simp [resolveDbUrl, pyOrOpt, ht, hs]
  · subst hf; subst he
    simp [resolveDbUrl, pyOrOpt, hi, hs]
  · have hres : resolveDbUrl flag envI envE = Except.error () := by
      cases flag with
      | none =>
        cases envE with
        | none =>
          cases envI with
          | none => rfl
          | some si => simp [resolveDbUrl, pyOrOpt, hi]
        | some se =>
          cases envI with
          | none =>
            simp [resolveDbUrl, pyOrOpt, pyTruthy, pyTruthy_false_isEmpty he]
          | some si =>
            simp [resolveDbUrl, pyOrOpt, hi, pyTruthy_false_isEmpty he]
      | some sf =>
        simp [resolveDbUrl, pyTruthy_false_isEmpty hf]
    exact ⟨hres, by simp [scriptDbEffects, hres]⟩

/-- C9 witness: with no flag and no environment URLs the resolution errors
and the script performs no database action; with all three present the flag
wins. -/
theorem C9_db_url_priority_witness :
    (resolveDbUrl none none none = Except.error ()
      ∧ scriptDbEffects none none none (fun u => ["insert", u]) = [])
    ∧ resolveDbUrl (some "flagurl") (some "envurl") (some "exturl")
        = Except.ok "flagurl" :=
  ⟨(C9_db_url_priority none none none (fun u => ["insert", u])).2.2.2
      rfl rfl rfl,
   (C9_db_url_priority (some "flagurl") (some "envurl") (some "exturl")
      (fun u => ["insert", u])).1 "flagurl" rfl (by decide)⟩

/-- Looking up a key just written by `setVal` yields the written value. -/
theorem lookup_setVal_self (env : List (String × String)) (k v : String) :
    envLookup (setVal env k v) k = some v := by
  induction env with
  | nil => simp [setVal, envLookup, List.find?]
  | cons p rest ih =>
    cases hp : p.1 == k with
    | true =>
      simp [setVal, hp, envLookup, List.find?]
    | false =>
      simp only [setVal, hp, Bool.false_eq_true, if_neg, not_false_eq_true]
      rw [envLookup, List.find?_cons_of_neg _ (by simp [hp])]
      exact ih

/-- `setVal` leaves lookups of every other key unchanged. -/
theorem lookup_setVal_ne (env : List (String × String)) (k v k' : String)
    (h : (k' == k) = false) :
    envLookup (setVal env k v) k' = envLookup env k' := by
  have hk : (k == k') = false := by
    rw [beq_eq_false_iff_ne] at h ⊢
    exact fun hkk => h hkk.symm
  induction env with
  | nil => simp [setVal, envLookup, List.find?, hk]
  | cons p rest ih =>
    cases hp : p.1 == k with
    | true =>
      have hpk : p.1 = k := by rwa [beq_iff_eq] at hp
      simp only [setVal, hp, if_pos]
      rw [envLookup, List.find?_cons_of_neg _ (by simp [hk]),
        envLookup, List.find?_cons_of_neg _ (by simp [hpk, hk])]
    | false =>
      simp only [setVal, hp, Bool.false_eq_true, if_neg, not_false_eq_true]
      cases hph : p.1 == k' with
      | true =>
        rw [envLookup, List.find?_cons_of_pos _ (by simp [hph]),
          envLookup, List.find?_cons_of_pos _ (by simp [hph])]
      | false =>
        rw [envLookup, List.find?_cons_of_neg _ (by simp [hph]),
          envLookup, List.find?_cons_of_neg _ (by simp [hph])]
        exact ih

/-- C10: in `DockerManager`'s generated mapping, `BOOTSTRAP_ADMIN_API_KEY`
and `ADMIN_API_KEY` both receive the single `ad_`-prefixed token of draw 0,
while `SECRET_KEY`, `MYSQL_ROOT_PASSWORD` and `MYSQL_PASSWORD` receive the
pairwise-distinct fresh draws 1, 2 and 3. -/
theorem C10_admin_key_duplicated (env0 : List (String × String))
    (ts : Nat → String) :
    envLookup (applySecretsStart env0 ts) "BOOTSTRAP_ADMIN_API_KEY"
      = some ("ad_" ++ ts 0)
    ∧ envLookup (applySecretsStart env0 ts) "ADMIN_API_KEY"
      = some ("ad_" ++ ts 0)
    ∧ envLookup (applySecretsStart env0 ts) "SECRET_KEY" = some (ts 1)
    ∧ envLookup (applySecretsStart env0 ts) "MYSQL_ROOT_PASSWORD" = some (ts 2)
    ∧ envLookup (applySecretsStart env0 ts) "MYSQL_PASSWORD" = some (ts 3) := by
  have h : applySecretsStart env0 ts
      = setVal (setVal (setVal (setVal (setVal env0 "SECRET_KEY" (ts 1))
          "MYSQL_ROOT_PASSWORD" (ts 2)) "MYSQL_PASSWORD" (ts 3))
          "BOOTSTRAP_ADMIN_API_KEY" ("ad_" ++ ts 0))
          "ADMIN_API_KEY" ("ad_" ++ ts 0) := rfl
  refine ⟨?_, ?_, ?_, ?_, ?_⟩
  · rw [h, lookup_setVal_ne _ _ _ _ (by decide), lookup_setVal_self]
  · rw [h, lookup_setVal_self]
  · rw [h, lookup_setVal_ne _ _ _ _ (by decide),
      lookup_setVal_ne _ _ _ _ (by decide), lookup_setVal_ne _ _ _ _ (by decide),
      lookup_setVal_ne _ _ _ _ (by decide), lookup_setVal_self]
  · rw [h, lookup_setVal_ne _ _ _ _ (by decide),
      lookup_setVal_ne _ _ _ _ (by decide), lookup_setVal_ne _ _ _ _ (by decide),
      lookup_setVal_self]
  · rw [h, lookup_setVal_ne _ _ _ _ (by decide),
      lookup_setVal_ne _ _ _ _ (by decide), lookup_setVal_self]

/-- C6: both implementations of host-port extraction return the
second-to-last `:`-segment of the first `ports` entry with at least two
segments whose last segment equals the requested container port, and `none`
when no entry matches (a bare `container` entry never yields a host port);
whitespace-free segments make the orchestration variant's `strip` a no-op. -/
theorem C6_host_port_extraction (ports : List String) (cp : String)
    (htrim : ∀ p ∈ ports, ∀ seg ∈ pySplitColon p, pyStrip seg = seg) :
    findHostPortStart ports cp = (ports.find? (entryMatches cp)).bind penultSeg
    ∧ findHostPortOrch ports cp
      = (ports.find? (entryMatches cp)).bind penultSeg := by
  induction ports with
  | nil => exact ⟨rfl, rfl⟩
  | cons p rest ih =>
    have hrest := ih fun q hq seg hseg =>
      htrim q (List.mem_cons_of_mem _ hq) seg hseg
    rcases hrev : (pySplitColon p).reverse with _ | ⟨last, _ | ⟨penult, tail⟩⟩
    · constructor
      · rw [findHostPortStart, hrev, List.find?_cons_of_neg _
          (by simp [entryMatches, hrev])]
        exact hrest.1
      · rw [findHostPortOrch, hrev, List.find?_cons_of_neg _
          (by simp [entryMatches, hrev])]
        exact hrest.2
    · constructor
      · rw [findHostPortStart, hrev, List.find?_cons_of_neg _
          (by simp [entryMatches, hrev])]
        exact hrest.1
      · rw [findHostPortOrch, hrev, List.find?_cons_of_neg _
          (by simp [entryMatches, hrev])]
        exact hrest.2
    · by_cases hlast : last = cp
      · have hmatch : entryMatches cp p = true := by
          simp [entryMatches, hrev, hlast]
        have hpen : pyStrip penult = penult := by
          refine htrim p (List.mem_cons_self _ _) penult ?_
          have : penult ∈ (pySplitColon p).reverse := by
            rw [hrev]; exact List.mem_cons_of_mem _ (List.mem_cons_self _ _)
          exact List.mem_reverse.mp this
        constructor
        · rw [findHostPortStart, hrev, List.find?_cons_of_pos _ hmatch]
          simp [penultSeg, hrev, hlast]
        · rw [findHostPortOrch, hrev, List.find?_cons_of_pos _ hmatch]
          simp [penultSeg, hrev, hlast, hpen]
      · have hmatch : entryMatches cp p = false := by
          simp [entryMatches, hrev, hlast]
        constructor
        · rw [findHostPortStart, hrev, List.find?_cons_of_neg _ (by simp [hmatch])]
          simp only [if_neg hlast]
          exact hrest.1
        · rw [findHostPortOrch, hrev, List.find?_cons_of_neg _ (by simp [hmatch])]
          simp only [if_neg hlast]
          exact hrest.2

/-- C6 witness: the spec's example — ports `["3307:3306"]` queried with
container port `"3306"` yields host port `"3307"` in both managers. -/
theorem C6_host_port_extraction_witness :
    findHostPortStart ["3307:3306"] "3306"
      = ((["3307:3306"] : List String).find? (entryMatches "3306")).bind penultSeg
    ∧ findHostPortStart ["3307:3306"] "3306" = some "3307"
    ∧ findHostPortOrch ["3307:3306"] "3306" = some "3307"
    ∧ findHostPortStart ["3306"] "3306" = none :=
  ⟨(C6_host_port_extraction ["3307:3306"] "3306" (by decide)).1,
   by decide, by decide, by decide⟩

/-- Membership in `concatMap`. -/
theorem mem_concatMap {f : α → List β} {b : β} {l : List α} :
    b ∈ concatMap f l ↔ ∃ a ∈ l, b ∈ f a := by
  induction l with
  | nil => simp [concatMap]
  | cons x xs ih =>
    simp only [concatMap, List.mem_append, ih, List.mem_cons]
    constructor
    · rintro (hb | ⟨a, ha, hb⟩)
      · exact ⟨x, Or.inl rfl, hb⟩
      · exact ⟨a, Or.inr ha, hb⟩
    · rintro ⟨a, ha | ha, hb⟩
      · exact Or.inl (ha ▸ hb)
      · exact Or.inr ⟨a, ha, hb⟩

/-- Membership in sorted insertion. -/
theorem mem_insertSorted {x a : String} {l : List String} :
    a ∈ insertSorted x l ↔ a = x ∨ a ∈ l := by
  induction l with
  | nil => simp [insertSorted]
  | cons y ys ih =>
    rw [insertSorted]
    by_cases h : strLtB x y = true
    · simp [h, List.mem_cons]
    · simp only [if_neg h, List.mem_cons, ih]
      tauto

/-- `sortStrings` preserves membership. -/
theorem mem_sortStrings {a : String} {l : List String} :
    a ∈ sortStrings l ↔ a ∈ l := by
  induction l with
  | nil => simp [sortStrings]
  | cons x xs ih =>
    rw [sortStrings, mem_insertSorted, ih, List.mem_cons]

/-- A list with a member is not empty. -/
theorem isEmpty_false_of_mem {l : List α} {a : α} (h : a ∈ l) :
    l.isEmpty = false := by
  cases l with
  | nil => cases h
  | cons x xs => rfl

/-- A key of the mapping always has a looked-up value. -/
theorem envLookup_of_mem_keys {env : List (String × String)} {k : String}
    (hk : k ∈ env.map Prod.fst) : ∃ v, envLookup env k = some v := by
  induction env with
  | nil => cases hk
  | cons p rest ih =>
    cases hp : p.1 == k with
    | true =>
      have hfind : List.find? (fun q : String × String => q.1 == k) (p :: rest)
          = some p := List.find?_cons_of_pos _ hp
      exact ⟨p.2, by rw [envLookup, hfind]; rfl⟩
    | false =>
      have hk' : k ∈ rest.map Prod.fst := by
        rcases List.mem_cons.mp hk with h | h
        · exact absurd (beq_iff_eq.mpr h.symm) (by simp [hp])
        · exact h
      obtain ⟨v, hv⟩ := ih hk'
      refine ⟨v, ?_⟩
      rw [envLookup, List.find?_cons_of_neg _ (by simp [hp])]
      rw [envLookup] at hv
      exact hv

/-- C8 counterexample: `DockerManager`'s writer has no leftover pass — with
`BOOTSTRAP_ADMIN_EMAIL` in the mapping (as `start.py`'s defaults put it) and
`start.py`'s own `_ENV_STRUCTURE`, the rendered file contains no line for it,
so the claim's "no key is silently dropped ... holds for both" fails. -/
theorem C8_start_drops_key_counterexample :
    envLookup [("BOOTSTRAP_ADMIN_EMAIL", "admin@example.com")]
        "BOOTSTRAP_ADMIN_EMAIL" = some "admin@example.com"
    ∧ formatEnvStart [("BOOTSTRAP_ADMIN_EMAIL", "admin@example.com")]
        startEnvStructure
      = ["# Auto-generated .env", "\n# Secrets", "\n# Database",
         "\n# Services", "\n# Samba", "\n# Application"] := by
  refine ⟨by decide, by decide⟩

/-- C8 amended: for `DockerOrchestrationManager` the claim holds — every key
of the mapping is rendered, either inside its (order-preserved) section or
under the trailing `Other (Uncategorized)` section; `DockerManager` emits
only the keys listed in its `_ENV_STRUCTURE` and silently drops the rest
(e.g. `BOOTSTRAP_ADMIN_EMAIL`, `BOOTSTRAP_ADMIN_NAME`). -/
theorem C8_orch_no_key_dropped (env : List (String × String))
    (spec : List (String × List String)) (k : String)
    (hk : k ∈ env.map Prod.fst) :
    ∃ v, envLookup env k = some v
      ∧ formatLineOrch k v ∈ formatEnvOrch env spec := by
  obtain ⟨v, hv⟩ := envLookup_of_mem_keys hk
  refine ⟨v, hv, ?_⟩
  rw [formatEnvOrch]
  by_cases hproc : k ∈ processedKeysOrch env spec
  · rw [processedKeysOrch, mem_concatMap] at hproc
    obtain ⟨sec, hsec, hkf⟩ := hproc
    obtain ⟨hksec, _⟩ := List.mem_filter.mp hkf
    have hline : formatLineOrch k v ∈ sectionBody env sec.2 := by
      rw [sectionBody, List.mem_filterMap]
      exact ⟨k, hksec, by rw [hv]; rfl⟩
    have hrender : formatLineOrch k v ∈ renderSectionOrch env sec.1 sec.2 := by
      rw [renderSectionOrch]
      refine List.mem_append.mpr (Or.inl (List.mem_append.mpr (Or.inr ?_)))
      rw [isEmpty_false_of_mem hline]
      simpa using hline
    refine List.mem_append.mpr (Or.inl (List.mem_append.mpr (Or.inr ?_)))
    exact mem_concatMap.mpr ⟨sec, hsec, hrender⟩
  · have hany : (processedKeysOrch env spec).any (fun x => x == k) = false := by
      cases hA : (processedKeysOrch env spec).any (fun x => x == k) with
      | false => rfl
      | true =>
        obtain ⟨x, hx, hxk⟩ := List.any_eq_true.mp hA
        rw [beq_iff_eq] at hxk
        exact absurd (hxk ▸ hx) hproc
    have hrem : k ∈ remainingKeysOrch env spec := by
      rw [remainingKeysOrch, mem_sortStrings, List.mem_filter]
      exact ⟨hk, by rw [hany]; rfl⟩
    refine List.mem_append.mpr (Or.inr ?_)
    rw [isEmpty_false_of_mem hrem]
    simp only [Bool.false_eq_true, if_neg, not_false_eq_true]
    refine List.mem_append.mpr (Or.inl (List.mem_append.mpr (Or.inr ?_)))
    rw [sectionBody, List.mem_filterMap]
    exact ⟨k, hrem, by rw [hv]; rfl⟩

/-- C8 witness: the orchestration writer keeps `BOOTSTRAP_ADMIN_EMAIL` (the
very key `DockerManager` drops), even against `start.py`'s section
structure. -/
theorem C8_orch_no_key_dropped_witness :
    ∃ v, envLookup [("BOOTSTRAP_ADMIN_EMAIL", "admin@example.com")]
          "BOOTSTRAP_ADMIN_EMAIL" = some v
      ∧ formatLineOrch "BOOTSTRAP_ADMIN_EMAIL" v
          ∈ formatEnvOrch [("BOOTSTRAP_ADMIN_EMAIL", "admin@example.com")]
              startEnvStructure :=
  C8_orch_no_key_dropped _ startEnvStructure _ (by decide)

/-- `find?` skips a prefix in which nothing matches. -/
theorem find?_append_of_none {p : α → Bool} {l1 l2 : List α}
    (h : l1.find? p = none) : (l1 ++ l2).find? p = l2.find? p := by
  induction l1 with
  | nil => rfl
  | cons a t ih =>
    rw [List.find?_cons] at h
    cases hp : p a with
    | true => rw [hp] at h; cases h
    | false =>
      rw [hp] at h
      rw [List.cons_append, List.find?_cons, hp]
      exact ih h

/-- `find?` commutes with a map that does not disturb the predicate. -/
theorem find?_map_of_pred_invariant (p : α → Bool) (f : α → α)
    (hf : ∀ x, p (f x) = p x) (l : List α) :
    (l.map f).find? p = (l.find? p).map f := by
  induction l with
  | nil => rfl
  | cons a t ih =>
    rw [List.map_cons, List.find?_cons, List.find?_cons, hf a]
    cases hp : p a with
    | true => rfl
    | false => exact ih

/-- Two matching members of a list with at most one match coincide. -/
theorem eq_of_countP_le_one {l : List α} {p : α → Bool}
    (h : l.countP p ≤ 1) {x y : α} (hx : x ∈ l) (px : p x = true)
    (hy : y ∈ l) (py : p y = true) : x = y := by
  have hx' : x ∈ l.filter p := List.mem_filter.mpr ⟨hx, px⟩
  have hy' : y ∈ l.filter p := List.mem_filter.mpr ⟨hy, py⟩
  rw [List.countP_eq_length_filter] at h
  rcases hf : l.filter p with _ | ⟨a, _ | ⟨b, t⟩⟩
  · rw [hf] at hx'; cases hx'
  · rw [hf] at hx' hy'
    rcases List.mem_singleton.mp hx' with rfl
    rcases List.mem_singleton.mp hy' with rfl
    rfl
  · rw [hf] at h; simp at h

/-- `find_or_create_admin_user` never touches the `keys` table. -/
theorem focKeys (db : DB) (e n i : String) :
    ((findOrCreateAdminUser db e n i).1).keys = db.keys := by
  cases hf : db.users.find? (fun u => u.email == e) with
  | none => simp only [findOrCreateAdminUser, hf]
  | some u =>
    cases hA : u.isAdmin with
    | true => simp only [findOrCreateAdminUser, hf, hA, if_pos]
    | false =>
      simp only [findOrCreateAdminUser, hf, hA, Bool.false_eq_true, if_neg,
        not_false_eq_true]

/-- The user returned by `find_or_create_admin_user` has the requested email
and is an admin. -/
theorem focUser (db : DB) (e n i : String) :
    ((findOrCreateAdminUser db e n i).2).email = e
    ∧ ((findOrCreateAdminUser db e n i).2).isAdmin = true := by
  cases hf : db.users.find? (fun u => u.email == e) with
  | none => simp [findOrCreateAdminUser, hf]
  | some u =>
    have hue : u.email = e := by
      have := List.find?_some hf
      rwa [beq_iff_eq] at this
    cases hA : u.isAdmin with
    | true => simp [findOrCreateAdminUser, hf, hA, hue]
    | false => simp [findOrCreateAdminUser, hf, hA, hue]

/-- After `find_or_create_admin_user`, scanning for the email finds exactly
the returned user. -/
theorem focFind (db : DB) (e n i : String) :
    ((findOrCreateAdminUser db e n i).1).users.find? (fun u => u.email == e)
      = some (findOrCreateAdminUser db e n i).2 := by
  cases hf : db.users.find? (fun u => u.email == e) with
  | none =>
    simp only [findOrCreateAdminUser, hf]
    rw [find?_append_of_none hf]
    simp
  | some u =>
    cases hA : u.isAdmin with
    | true => simp [findOrCreateAdminUser, hf, hA]
    | false =>
      simp only [findOrCreateAdminUser, hf, hA, Bool.false_eq_true, if_neg,
        not_false_eq_true]
      rw [find?_map_of_pred_invariant (fun u : User => u.email == e)
        (fun x : User =>
          if x.email == e then { x with isAdmin := true } else x)
        (by
          intro x
          cases hx : x.email == e with
          | true => simp [hx]
          | false => simp [hx]) db.users]
      have hue : u.email = e := by
        have := List.find?_some hf
        rwa [beq_iff_eq] at this
      rw [hf]
      simp [hue]

/-- With at most one user row carrying the email, `find_or_create_admin_user`
leaves exactly one such row. -/
theorem focCount (db : DB) (e n i : String)
    (huniq : db.users.countP (fun u => u.email == e) ≤ 1) :
    ((findOrCreateAdminUser db e n i).1).users.countP
      (fun u => u.email == e) = 1 := by
  cases hf : db.users.find? (fun u => u.email == e) with
  | none =>
    have hzero : db.users.countP (fun u => u.email == e) = 0 := by
      rw [List.countP_eq_zero]
      intro a ha
      simpa using List.find?_eq_none.mp hf a ha
    simp only [findOrCreateAdminUser, hf]
    rw [List.countP_append, hzero]
    simp [List.countP_cons]
  | some u =>
    have hmem := List.mem_of_find?_eq_some hf
    have hp : (u.email == e) = true := by
      simpa using List.find?_some hf
    have hpos : 0 < db.users.countP (fun u => u.email == e) :=
      List.countP_pos_iff.mpr ⟨u, hmem, hp⟩
    have hone : db.users.countP (fun u => u.email == e) = 1 :=
      le_antisymm huniq hpos
    cases hA : u.isAdmin with
    | true => simp only [findOrCreateAdminUser, hf, hA, if_pos]; exact hone
    | false =>
      simp only [findOrCreateAdminUser, hf, hA, Bool.false_eq_true, if_neg,
        not_false_eq_true]
      rw [List.countP_map]
      rw [show ((fun u : User => u.email == e)
          ∘ fun x : User =>
            if x.email == e then { x with isAdmin := true } else x)
          = fun u : User => u.email == e from funext fun x => by
        cases hx : x.email == e with
        | true => simp [Function.comp, hx]
        | false => simp [Function.comp, hx]]
      exact hone

/-- With at most one user row carrying the email, after
`find_or_create_admin_user` every row with that email is an admin. -/
theorem focAllAdmin (db : DB) (e n i : String)
    (huniq : db.users.countP (fun u => u.email == e) ≤ 1) :
    ∀ x ∈ ((findOrCreateAdminUser db e n i).1).users,
      (x.email == e) = true → x.isAdmin = true := by
  cases hf : db.users.find? (fun u => u.email == e) with
  | none =>
    simp only [findOrCreateAdminUser, hf]
    intro x hx hpx
    rcases List.mem_append.mp hx with h | h
    · exact absurd hpx (by simpa using List.find?_eq_none.mp hf x h)
    · rcases List.mem_singleton.mp h with rfl
      rfl
  | some u =>
    have hmem := List.mem_of_find?_eq_some hf
    have hp : (u.email == e) = true := by
      simpa using List.find?_some hf
    cases hA : u.isAdmin with
    | true =>
      simp only [findOrCreateAdminUser, hf, hA, if_pos]
      intro x hx hpx
      rw [eq_of_countP_le_one huniq hx hpx hmem hp]
      exact hA
    | false =>
      simp only [findOrCreateAdminUser, hf, hA, Bool.false_eq_true, if_neg,
        not_false_eq_true]
      intro x hx hpx
      rcases List.mem_map.mp hx with ⟨y, hy, rfl⟩
      cases hye : y.email == e with
      | true => simp [hye]
      | false =>
        rw [if_neg (by simp [hye])] at hpx ⊢
        rw [hpx] at hye
        cases hye

/-- A second `find_or_create_admin_user` on a state whose scan already yields
an admin user is the identity. -/
theorem focFoundAdmin (d : DB) (e n i : String) (u : User)
    (hfind : d.users.find? (fun x => x.email == e) = some u)
    (hadm : u.isAdmin = true) :
    findOrCreateAdminUser d e n i = (d, u) := by
  simp [findOrCreateAdminUser, hfind, hadm]

/-- `generate_and_save_key` never touches the `users` table. -/
theorem gskUsers (d : DB) (u : User) (kn fk : String)
    (hash : String → String) :
    ((generateAndSaveKey d u kn fk hash).1).users = d.users := by
  cases hf : d.keys.find? (fun k => k.userId == u.id) with
  | some k => simp [generateAndSaveKey, hf]
  | none => simp [generateAndSaveKey, hf]

/-- `generate_and_save_key` inserts at most one key row. -/
theorem gskKeysLen (d : DB) (u : User) (kn fk : String)
    (hash : String → String) :
    ((generateAndSaveKey d u kn fk hash).1).keys.length
      ≤ d.keys.length + 1 := by
  cases hf : d.keys.find? (fun k => k.userId == u.id) with
  | some k =>
    simp only [generateAndSaveKey, hf]
    exact Nat.le_succ _
  | none => simp [generateAndSaveKey, hf]

/-- After `generate_and_save_key` the user always owns some key row. -/
theorem gskExistsKey (d : DB) (u : User) (kn fk : String)
    (hash : String → String) :
    ∃ kk ∈ ((generateAndSaveKey d u kn fk hash).1).keys,
      (kk.userId == u.id) = true := by
  cases hf : d.keys.find? (fun k => k.userId == u.id) with
  | some k =>
    refine ⟨k, ?_, ?_⟩
    · simp only [generateAndSaveKey, hf]
      exact List.mem_of_find?_eq_some hf
    · simpa using List.find?_some hf
  | none =>
    simp only [generateAndSaveKey, hf]
    exact ⟨{ userId := u.id, keyName := kn, hashedKey := hash fk,
             keyPfx := pyTake 8 fk, isActive := true },
      by simp, by simp⟩

/-- When the user already owns a key, `generate_and_save_key` inserts
nothing and reports only the stored prefix. -/
theorem gskFound (d : DB) (u : User) (kn fk : String)
    (hash : String → String)
    (h : ∃ kk ∈ d.keys, (kk.userId == u.id) = true) :
    (generateAndSaveKey d u kn fk hash).1 = d
    ∧ (generateAndSaveKey d u kn fk hash).2.1 = none
    ∧ ∃ kk ∈ d.keys,
        (generateAndSaveKey d u kn fk hash).2.2 = some kk.keyPfx := by
  obtain ⟨kk, hmem, hpk⟩ := h
  cases hf : d.keys.find? (fun k => k.userId == u.id) with
  | none =>
    exact absurd hpk (by simpa using List.find?_eq_none.mp hf kk hmem)
  | some k =>
    exact ⟨by simp [generateAndSaveKey, hf], by simp [generateAndSaveKey, hf],
      k, List.mem_of_find?_eq_some hf, by simp [generateAndSaveKey, hf]⟩

/-- C7: bootstrap is idempotent — given the schema's email-uniqueness
invariant, the second run leaves the database exactly as the first left it;
after the first run there is exactly one user row with the email, every such
row is an admin, at most one key row was inserted, and the second
`generate_and_save_key` returns `(none, stored prefix)`. -/
theorem C7_bootstrap_idempotent (db : DB)
    (email name id1 id2 kn1 kn2 fk1 fk2 : String) (hash : String → String)
    (huniq : db.users.countP (fun u => u.email == email) ≤ 1) :
    (runBootstrap (runBootstrap db email name id1 kn1 fk1 hash).1
        email name id2 kn2 fk2 hash).1
      = (runBootstrap db email name id1 kn1 fk1 hash).1
    ∧ (runBootstrap db email name id1 kn1 fk1 hash).1.users.countP
        (fun u => u.email == email) = 1
    ∧ (∀ u ∈ (runBootstrap db email name id1 kn1 fk1 hash).1.users,
        (u.email == email) = true → u.isAdmin = true)
    ∧ (runBootstrap db email name id1 kn1 fk1 hash).1.keys.length
        ≤ db.keys.length + 1
    ∧ (runBootstrap (runBootstrap db email name id1 kn1 fk1 hash).1
        email name id2 kn2 fk2 hash).2.1 = none
    ∧ (∃ kk ∈ (runBootstrap db email name id1 kn1 fk1 hash).1.keys,
        (runBootstrap (runBootstrap db email name id1 kn1 fk1 hash).1
          email name id2 kn2 fk2 hash).2.2 = some kk.keyPfx) := by
  have hrb1 : runBootstrap db email name id1 kn1 fk1 hash
      = generateAndSaveKey (findOrCreateAdminUser db email name id1).1
          (findOrCreateAdminUser db email name id1).2 kn1 fk1 hash := rfl
  have husers1 : (runBootstrap db email name id1 kn1 fk1 hash).1.users
      = (findOrCreateAdminUser db email name id1).1.users := by
    rw [hrb1]; exact gskUsers _ _ _ _ _
  have hex1 : ∃ kk ∈ (runBootstrap db email name id1 kn1 fk1 hash).1.keys,
      (kk.userId == (findOrCreateAdminUser db email name id1).2.id) = true := by
    rw [hrb1]; exact gskExistsKey _ _ _ _ _
  have hfind2 : (runBootstrap db email name id1 kn1 fk1 hash).1.users.find?
      (fun u => u.email == email)
      = some (findOrCreateAdminUser db email name id1).2 := by
    rw [husers1]; exact focFind db email name id1
  have hfoc2 : findOrCreateAdminUser
      (runBootstrap db email name id1 kn1 fk1 hash).1 email name id2
      = ((runBootstrap db email name id1 kn1 fk1 hash).1,
         (findOrCreateAdminUser db email name id1).2) :=
    focFoundAdmin _ _ _ _ _ hfind2 (focUser db email name id1).2
  have hrb2 : runBootstrap (runBootstrap db email name id1 kn1 fk1 hash).1
      email name id2 kn2 fk2 hash
      = generateAndSaveKey (runBootstrap db email name id1 kn1 fk1 hash).1
          (findOrCreateAdminUser db email name id1).2 kn2 fk2 hash := by
    calc runBootstrap (runBootstrap db email name id1 kn1 fk1 hash).1
          email name id2 kn2 fk2 hash
        = generateAndSaveKey
            (findOrCreateAdminUser
              (runBootstrap db email name id1 kn1 fk1 hash).1 email name id2).1
            (findOrCreateAdminUser
              (runBootstrap db email name id1 kn1 fk1 hash).1 email name id2).2
            kn2 fk2 hash := rfl
      _ = generateAndSaveKey (runBootstrap db email name id1 kn1 fk1 hash).1
            (findOrCreateAdminUser db email name id1).2 kn2 fk2 hash := by
          rw [hfoc2]
  have hgsk2 := gskFound (runBootstrap db email name id1 kn1 fk1 hash).1
      (findOrCreateAdminUser db email name id1).2 kn2 fk2 hash hex1
  refine ⟨?_, ?_, ?_, ?_, ?_, ?_⟩
  · rw [hrb2]; exact hgsk2.1
  · rw [husers1]; exact focCount db email name id1 huniq
  · intro u hu hp
    rw [husers1] at hu
    exact focAllAdmin db email name id1 huniq u hu hp
  · rw [hrb1]
    have h := gskKeysLen (findOrCreateAdminUser db email name id1).1
      (findOrCreateAdminUser db email name id1).2 kn1 fk1 hash
    rwa [focKeys db email name id1] at h
  · rw [hrb2]; exact hgsk2.2.1
  · rw [hrb2]; exact hgsk2.2.2

/-- C7 witness: the theorem applied to the empty database with concrete
bootstrap arguments — the second run reports no plaintext key. -/
theorem C7_bootstrap_idempotent_witness :
    (runBootstrap
        (runBootstrap { users := [], keys := [] } "admin@example.com"
          "Default Admin" "user_1" "Admin Bootstrap Key" "ad_tok_one" id).1
        "admin@example.com" "Default Admin" "user_2" "Admin Bootstrap Key"
        "ad_tok_two" id).1
      = (runBootstrap { users := [], keys := [] } "admin@example.com"
          "Default Admin" "user_1" "Admin Bootstrap Key" "ad_tok_one" id).1
    ∧ (runBootstrap
        (runBootstrap { users := [], keys := [] } "admin@example.com"
          "Default Admin" "user_1" "Admin Bootstrap Key" "ad_tok_one" id).1
        "admin@example.com" "Default Admin" "user_2" "Admin Bootstrap Key"
        "ad_tok_two" id).2.1 = none :=
  ⟨(C7_bootstrap_idempotent { users := [], keys := [] } "admin@example.com"
      "Default Admin" "user_1" "user_2" "Admin Bootstrap Key"
      "Admin Bootstrap Key" "ad_tok_one" "ad_tok_two" id (by decide)).1,
   (C7_bootstrap_idempotent { users := [], keys := [] } "admin@example.com"
      "Default Admin" "user_1" "user_2" "Admin Bootstrap Key"
      "Admin Bootstrap Key" "ad_tok_one" "ad_tok_two" id (by decide)).2.2.2.2.1⟩
